import Mathlib

/-!
Verification of the soundboard client (src/src) and of the playback
orchestrator it talks to, against the natural-language specification.

The frontend TypeScript modules `lib/api.ts`, `hooks/usePlayback.ts`,
`lib/apiTransform.ts`, `components/soundboard/SettingsView.tsx` and
`pages/Index.tsx` are embedded shallowly below: each exported function
becomes a Lean function over explicit data, HTTP requests become values of
a `Request` type, and React mutations become the request their
`mutationFn` issues.  The backend playback orchestrator is not part of
the frontend sources; where a claim depends on it, it is modelled from
the specification and marked as such in its doc comment.
-/

namespace Soundboard

/-! ## HTTP request model (src/src/lib/api.ts) -/

/-- HTTP method of a fetch call. -/
inductive Method
  | GET
  | POST
  | PUT
  | DELETE
  deriving DecidableEq

/-- Body of a request issued by the client.  The playback API only ever
sends either no body or the JSON object with the single field
`restart` (see `playbackApi.play`). -/
inductive RequestBody
  | empty
  | playBody (restart : Bool)
  deriving DecidableEq

/-- One HTTP request as issued by `apiCall` in `lib/api.ts`:
method, endpoint path (relative to the API base) and body. -/
structure Request where
  method : Method
  path : String
  body : RequestBody
  deriving DecidableEq

/-- JS `a || b` on strings: the empty string is falsy. -/
def jsOrString (a b : String) : String :=
  if a = "" then b else a

/-- JS `a || b` where `a` is a nullable string (null and the empty string
are both falsy). -/
def jsOrOptString (a : Option String) (b : String) : String :=
  match a with
  | some s => jsOrString s b
  | none => b

/-- JS truthiness of a nullable string value. -/
def jsTruthy (a : Option String) : Bool :=
  a.getD "" ≠ ""

/-- JS `a || b` where `a` is an optional boolean (as in
`restart || false` in `usePlaySound`). -/
def jsOrBool (a : Option Bool) (b : Bool) : Bool :=
  match a with
  | some x => x || b
  | none => b

/-- JS `a || b` on numbers: `0` is falsy (as in
`settingsData.defaultVolume || 80` in `SettingsView`). -/
def jsOrNat (a b : Nat) : Nat :=
  if a = 0 then b else a

/-- A fetch `Response` as observed by `apiCall`.  `errorBody` is the
outcome of `response.json()` on the non-ok path: `none` when the body is
not JSON (the `.catch` branch substitutes `{detail: statusText}`), and
`some d` when it parses, `d` being its optional `detail` string field.
`body` is the parsed JSON body of an ok, non-204 response, kept abstract
as its text. -/
structure HttpResponse where
  ok : Bool
  status : Nat
  statusText : String
  errorBody : Option (Option String)
  body : String
  deriving DecidableEq

/-- Result of a successful `apiCall`: `null` for a 204 response,
otherwise the parsed JSON body. -/
inductive ApiValue
  | nullValue
  | jsonValue (body : String)
  deriving DecidableEq

/-- JS `error.detail || fallback` where `detail` may be absent or empty. -/
def jsOrOptStringOpt (a : Option String) (b : String) : String :=
  match a with
  | some s => jsOrString s b
  | none => b

/-- `apiCall` from `lib/api.ts`: throws (returns `Except.error`) exactly
when `response.ok` is false, with the parsed `detail` message when
present (falling back to `statusText` when the error body is not JSON,
and to `HTTP error! status: N` when the detail is absent or empty);
returns `null` for a 204 response and the parsed JSON body otherwise. -/
def apiCall (response : HttpResponse) : Except String ApiValue :=
  if !response.ok then
    let error : Option String :=
      match response.errorBody with
      | none => some response.statusText
      | some detail => detail
    Except.error (jsOrOptStringOpt error ("HTTP error! status: " ++ toString response.status))
  else if response.status == 204 then
    Except.ok ApiValue.nullValue
  else
    Except.ok (ApiValue.jsonValue response.body)

/-! ## Playback API (src/src/lib/api.ts, `playbackApi`) -/

namespace playbackApi

/-- `playbackApi.play`: POST `/playback/play/:id` with body `{restart}`. -/
def play (soundId : String) (restart : Bool) : Request :=
  ⟨Method.POST, "/playback/play/" ++ soundId, RequestBody.playBody restart⟩

/-- `playbackApi.stop`: POST `/playback/stop/:id`, no body. -/
def stop (soundId : String) : Request :=
  ⟨Method.POST, "/playback/stop/" ++ soundId, RequestBody.empty⟩

/-- `playbackApi.toggle`: POST `/playback/toggle/:id`, no body. -/
def toggle (soundId : String) : Request :=
  ⟨Method.POST, "/playback/toggle/" ++ soundId, RequestBody.empty⟩

/-- `playbackApi.restart`: POST `/playback/restart/:id`, no body. -/
def restartSound (soundId : String) : Request :=
  ⟨Method.POST, "/playback/restart/" ++ soundId, RequestBody.empty⟩

/-- `playbackApi.stopAll`: POST `/playback/stop-all`, no body. -/
def stopAll : Request :=
  ⟨Method.POST, "/playback/stop-all", RequestBody.empty⟩

/-- `playbackApi.getNowPlaying`: GET `/playback/now-playing`. -/
def getNowPlaying : Request :=
  ⟨Method.GET, "/playback/now-playing", RequestBody.empty⟩

end playbackApi

/-! ## React-query hooks (src/src/hooks/usePlayback.ts) -/

/-- A `useMutation` configuration: the request its `mutationFn` issues
for a given argument, and the query keys invalidated on success. -/
structure MutationConfig (α : Type) where
  mutationFn : α → Request
  invalidates : List String

/-- A `useQuery` configuration as used by `useNowPlaying`. -/
structure QueryConfig where
  queryKey : List String
  queryFn : Request
  refetchInterval : Option Nat
  deriving DecidableEq

/-- `usePlaySound`: mutation over `{soundId, restart?}`; the hook passes
`restart || false` to `playbackApi.play`. -/
def usePlaySound : MutationConfig (String × Option Bool) :=
  { mutationFn := fun p => playbackApi.play p.1 (jsOrBool p.2 false)
    invalidates := ["now-playing"] }

/-- `useStopSound`: mutation issuing `playbackApi.stop`. -/
def useStopSound : MutationConfig String :=
  { mutationFn := playbackApi.stop
    invalidates := ["now-playing"] }

/-- `useToggleSound`: mutation issuing `playbackApi.toggle`. -/
def useToggleSound : MutationConfig String :=
  { mutationFn := playbackApi.toggle
    invalidates := ["now-playing"] }

/-- `useRestartSound`: mutation issuing `playbackApi.restart`. -/
def useRestartSound : MutationConfig String :=
  { mutationFn := playbackApi.restartSound
    invalidates := ["now-playing"] }

/-- `useStopAll`: mutation issuing `playbackApi.stopAll`.  Defined in
`usePlayback.ts` but never imported by `Index.tsx`. -/
def useStopAll : MutationConfig Unit :=
  { mutationFn := fun _ => playbackApi.stopAll
    invalidates := ["now-playing"] }

/-- `useNowPlaying`: query on key `now-playing`, fetching
`playbackApi.getNowPlaying` with `refetchInterval: 1000`. -/
def useNowPlaying : QueryConfig :=
  { queryKey := ["now-playing"]
    queryFn := playbackApi.getNowPlaying
    refetchInterval := some 1000 }

/-! ## Data transforms (src/src/lib/apiTransform.ts, src/src/types/sound.ts) -/

/-- `SourceType` from `types/sound.ts`. -/
inductive SourceType
  | DIRECT_URL
  | YOUTUBE
  | LOCAL_FILE
  deriving DecidableEq

/-- Backend sound record (snake_case JSON), as typed in
`apiTransform.ts`.  JS numbers carry no arithmetic here, so volume and
play count are `Nat` and trim seconds are `Int`; timestamps are kept as
their wire strings. -/
structure BackendSound where
  id : String
  name : String
  description : Option String
  tags : List String
  source_type : SourceType
  source_url : Option String
  local_path : Option String
  cover_image_path : Option String
  volume : Option Nat
  trim_start_sec : Option Int
  trim_end_sec : Option Int
  output_device : Option String
  play_count : Nat
  created_at : String
  updated_at : String
  deriving DecidableEq

/-- Frontend `Sound` from `types/sound.ts` (dates kept as strings). -/
structure Sound where
  id : String
  name : String
  description : String
  tags : List String
  sourceType : SourceType
  source : String
  coverImage : String
  volume : Nat
  trimStartSec : Option Int
  trimEndSec : Option Int
  defaultOutputDevice : Option String
  createdAt : String
  updatedAt : String
  playCount : Nat
  deriving DecidableEq

/-- The API base URL with `VITE_API_URL` unset (its default). -/
def API_BASE_URL : String := "http://localhost:8000/api"

/-- `transformSound` from `apiTransform.ts`. -/
def transformSound (backend : BackendSound) : Sound :=
  let source :=
    if backend.source_type = SourceType.LOCAL_FILE ∨
        (backend.source_type = SourceType.YOUTUBE ∧ jsTruthy backend.local_path) then
      jsOrOptString backend.local_path ""
    else
      jsOrOptString backend.source_url ""
  let coverImageUrl :=
    if jsTruthy backend.cover_image_path then
      API_BASE_URL ++ "/sounds/" ++ backend.id ++ "/cover"
    else
      ""
  { id := backend.id
    name := backend.name
    description := jsOrOptString backend.description ""
    tags := backend.tags
    sourceType := backend.source_type
    source := source
    coverImage := coverImageUrl
    volume := backend.volume.getD 80
    trimStartSec := backend.trim_start_sec
    trimEndSec := backend.trim_end_sec
    defaultOutputDevice := backend.output_device
    createdAt := backend.created_at
    updatedAt := backend.updated_at
    playCount := backend.play_count }

/-- Backend settings record (snake_case JSON), as typed in
`apiTransform.ts`. -/
structure BackendSettings where
  id : Nat
  default_output_device : Option String
  mpv_path : String
  ytdlp_path : String
  storage_dir : String
  stop_previous_on_play : Bool
  allow_overlapping : Bool
  default_volume : Option Nat
  updated_at : String
  deriving DecidableEq

/-- Frontend `Settings` from `types/sound.ts`. -/
structure Settings where
  audioOutputDevice : String
  mpvPath : String
  youtubeDownloadTool : String
  defaultVolume : Nat
  stopPreviousOnPlay : Bool
  allowOverlappingSounds : Bool
  deriving DecidableEq

/-- `transformSettings` from `apiTransform.ts`. -/
def transformSettings (backend : BackendSettings) : Settings :=
  { audioOutputDevice := jsOrOptString backend.default_output_device ""
    mpvPath := backend.mpv_path
    youtubeDownloadTool := backend.ytdlp_path
    defaultVolume := backend.default_volume.getD 80
    stopPreviousOnPlay := backend.stop_previous_on_play
    allowOverlappingSounds := backend.allow_overlapping }

/-! ## Settings form (src/src/components/soundboard/SettingsView.tsx) -/

/-- The load effect of `SettingsView`: when `settingsData` arrives, the
form state is set from it, with `||`-style fallbacks (`defaultVolume:
settingsData.defaultVolume || 80`, etc.; the two switches use `??`,
which is the identity on the non-nullable booleans). -/
def settingsLoadEffect (settingsData : Settings) : Settings :=
  { audioOutputDevice := jsOrString settingsData.audioOutputDevice ""
    mpvPath := jsOrString settingsData.mpvPath "mpv"
    youtubeDownloadTool := jsOrString settingsData.youtubeDownloadTool "yt-dlp"
    defaultVolume := jsOrNat settingsData.defaultVolume 80
    stopPreviousOnPlay := settingsData.stopPreviousOnPlay
    allowOverlappingSounds := settingsData.allowOverlappingSounds }

/-- The payload `handleSave` sends to `updateSettings.mutateAsync`
(`audioOutputDevice || undefined`, every other field verbatim). -/
structure SettingsUpdatePayload where
  audioOutputDevice : Option String
  mpvPath : String
  youtubeDownloadTool : String
  defaultVolume : Nat
  stopPreviousOnPlay : Bool
  allowOverlappingSounds : Bool
  deriving DecidableEq

/-- `handleSave` from `SettingsView.tsx`, as the payload it submits. -/
def handleSavePayload (settings : Settings) : SettingsUpdatePayload :=
  { audioOutputDevice :=
      if settings.audioOutputDevice = "" then none else some settings.audioOutputDevice
    mpvPath := settings.mpvPath
    youtubeDownloadTool := settings.youtubeDownloadTool
    defaultVolume := settings.defaultVolume
    stopPreviousOnPlay := settings.stopPreviousOnPlay
    allowOverlappingSounds := settings.allowOverlappingSounds }

/-! ## Index page (src/src/pages/Index.tsx) -/

/-- One entry of the `/playback/now-playing` response as the page reads
it (`playing.sound_id`); the backend serves further fields the page does
not touch. -/
structure NowPlayingEntry where
  sound_id : String
  deriving DecidableEq

/-- `playingSound` memo from `Index.tsx`: `null` when `nowPlaying` is
empty, else the first sound of the loaded list whose id equals
`nowPlaying[0].sound_id` (`null` when none matches). -/
def playingSound (sounds : List Sound) (nowPlaying : List NowPlayingEntry) : Option Sound :=
  match nowPlaying with
  | [] => none
  | playing :: _ => sounds.find? (fun s => s.id == playing.sound_id)

/-- `isPlaying` from `Index.tsx`: `playingSound !== null`. -/
def isPlaying (sounds : List Sound) (nowPlaying : List NowPlayingEntry) : Bool :=
  (playingSound sounds nowPlaying).isSome

/-- Kind of a toast notification (`variant: destructive` is the error
variant). -/
inductive ToastKind
  | success
  | error
  deriving DecidableEq

/-- A toast raised by a handler, reduced to its kind and description. -/
structure ToastMsg where
  kind : ToastKind
  description : String
  deriving DecidableEq

/-- Observable effects of a handler run: the playback requests it issues
and the toasts it raises. -/
structure Effects where
  requests : List Request
  toasts : List ToastMsg
  deriving DecidableEq

/-- `handlePlaySound` from `Index.tsx` (success path of the mutations):
rejects a sound whose resolved source is empty with an error toast and
no request; otherwise stops it when it is the displayed playing sound,
and plays it (with `restart: false`) when it is not. -/
def handlePlaySound (sounds : List Sound) (nowPlaying : List NowPlayingEntry)
    (sound : Sound) : Effects :=
  if sound.sourceType = SourceType.LOCAL_FILE ∧ sound.source = "" then
    { requests := []
      toasts := [⟨ToastKind.error,
        "This sound has no audio file. Please upload an audio file first."⟩] }
  else if sound.sourceType = SourceType.YOUTUBE ∧ sound.source = "" then
    { requests := []
      toasts := [⟨ToastKind.error,
        "YouTube audio not downloaded yet. Please ingest the sound first."⟩] }
  else if sound.sourceType = SourceType.DIRECT_URL ∧ sound.source = "" then
    { requests := []
      toasts := [⟨ToastKind.error, "This sound has no source URL configured."⟩] }
  else if (match playingSound sounds nowPlaying with
           | some ps => ps.id == sound.id
           | none => false) then
    { requests := [useStopSound.mutationFn sound.id]
      toasts := [] }
  else
    { requests := [usePlaySound.mutationFn (sound.id, some false)]
      toasts := [⟨ToastKind.success, sound.name⟩] }

/-- `handleStopSound` from `Index.tsx` (success path): stops the
displayed playing sound when there is one, otherwise does nothing. -/
def handleStopSound (sounds : List Sound) (nowPlaying : List NowPlayingEntry) : Effects :=
  match playingSound sounds nowPlaying with
  | some ps =>
    { requests := [useStopSound.mutationFn ps.id]
      toasts := [⟨ToastKind.success, ps.name⟩] }
  | none => { requests := [], toasts := [] }

/-- The now-playing bar's stop-all control as wired in `Index.tsx`:
`onStopAll={handleStopSound}`. -/
def nowPlayingBarOnStopAll (sounds : List Sound)
    (nowPlaying : List NowPlayingEntry) : Effects :=
  handleStopSound sounds nowPlaying

/-! ## Playback orchestrator (backend) -/

/-- Modelled from the spec: the backend Playback Orchestrator of spec
sections 3 and 4 is not among the frontend sources under `src/`; its
registry (a mapping holding at most one live entry per sound id) is
modelled as the list of sound ids with a live entry, in insertion
order. -/
structure OrchestratorState where
  registry : List String
  deriving DecidableEq

/-- Result of the Stop operation: `{stopped: bool}` per spec section 6. -/
structure StopResult where
  stopped : Bool
  deriving DecidableEq

namespace Orchestrator

/-- Modelled from the spec: `Stop(soundId)` removes the entry and kills
its process when present (`stopped=true`), and is a benign no-op
returning `stopped=false`, not an error, when the sound is idle. -/
def Stop (st : OrchestratorState) (soundId : String) : OrchestratorState × StopResult :=
  if soundId ∈ st.registry then
    (⟨st.registry.erase soundId⟩, ⟨true⟩)
  else
    (st, ⟨false⟩)

/-- Modelled from the spec: the StopAll-except drain performed by an
exclusive-policy Play, killing every entry other than `soundId`. -/
def StopAllExcept (st : OrchestratorState) (soundId : String) : OrchestratorState :=
  ⟨st.registry.filter (fun x => x == soundId)⟩

/-- Modelled from the spec: `Play(soundId)` under a resolved `exclusive`
flag first drains every other entry when exclusive, then inserts an
entry unless one is already live (idempotent no-op); spawning is taken
to succeed. -/
def Play (st : OrchestratorState) (soundId : String) (exclusive : Bool) : OrchestratorState :=
  let st1 := if exclusive then StopAllExcept st soundId else st
  if soundId ∈ st1.registry then st1 else ⟨st1.registry ++ [soundId]⟩

/-- Modelled from the spec: `Toggle(soundId)` atomically checks registry
membership and dispatches to Stop or Play. -/
def Toggle (st : OrchestratorState) (soundId : String) (exclusive : Bool) : OrchestratorState :=
  if soundId ∈ st.registry then (Stop st soundId).1 else Play st soundId exclusive

/-- Modelled from the spec: `StopAll()` drains the whole registry and
reports how many entries it killed. -/
def StopAll (st : OrchestratorState) : OrchestratorState × Nat :=
  (⟨[]⟩, st.registry.length)

end Orchestrator

/-! ## Concrete records used by witnesses -/

/-- A sound with id `a` and a resolved local source. -/
def soundA : Sound :=
  { id := "a", name := "Air horn", description := "", tags := []
    sourceType := SourceType.LOCAL_FILE, source := "/media/a.mp3", coverImage := ""
    volume := 80, trimStartSec := none, trimEndSec := none, defaultOutputDevice := none
    createdAt := "", updatedAt := "", playCount := 0 }

/-- A sound with id `b` and a resolved local source. -/
def soundB : Sound :=
  { id := "b", name := "Bell", description := "", tags := []
    sourceType := SourceType.LOCAL_FILE, source := "/media/b.mp3", coverImage := ""
    volume := 80, trimStartSec := none, trimEndSec := none, defaultOutputDevice := none
    createdAt := "", updatedAt := "", playCount := 0 }

/-- A local-file sound whose audio file was never uploaded (empty source). -/
def soundNoSource : Sound :=
  { id := "c", name := "Chime", description := "", tags := []
    sourceType := SourceType.LOCAL_FILE, source := "", coverImage := ""
    volume := 80, trimStartSec := none, trimEndSec := none, defaultOutputDevice := none
    createdAt := "", updatedAt := "", playCount := 0 }

/-- A backend sound record with a stored volume of 55. -/
def backendSoundVol55 : BackendSound :=
  { id := "a", name := "Air horn", description := none, tags := []
    source_type := SourceType.LOCAL_FILE, source_url := none
    local_path := some "/media/a.mp3", cover_image_path := none
    volume := some 55, trim_start_sec := none, trim_end_sec := none
    output_device := none, play_count := 0, created_at := "", updated_at := "" }

/-- A backend settings record with a null default volume. -/
def backendSettingsNullVol : BackendSettings :=
  { id := 1, default_output_device := none, mpv_path := "mpv", ytdlp_path := "yt-dlp"
    storage_dir := "/data", stop_previous_on_play := true, allow_overlapping := false
    default_volume := none, updated_at := "" }

/-- A frontend settings record whose stored default volume is 0. -/
def settingsZeroVol : Settings :=
  { audioOutputDevice := "", mpvPath := "mpv", youtubeDownloadTool := "yt-dlp"
    defaultVolume := 0, stopPreviousOnPlay := true, allowOverlappingSounds := false }

/-- A 204 No Content success response. -/
def resp204 : HttpResponse :=
  ⟨true, 204, "No Content", none, ""⟩

/-- A 404 error response whose JSON body carries a detail message. -/
def resp404 : HttpResponse :=
  ⟨false, 404, "Not Found", some (some "Sound not found"), ""⟩

/-! ## Helper lemmas about the orchestrator -/

/-- Toggling an idle sound makes it playing. -/
theorem mem_toggle_of_not_mem (st : OrchestratorState) (s : String) (exclusive : Bool)
    (hs : s ∉ st.registry) :
    s ∈ (Orchestrator.Toggle st s exclusive).registry := by
  have hfil : s ∉ (Orchestrator.StopAllExcept st s).registry := by
    intro hmem
    exact hs (List.mem_of_mem_filter hmem)
  unfold Orchestrator.Toggle Orchestrator.Play
  cases exclusive <;> simp [hs, hfil]

/-- Toggling a playing sound makes it idle (given the registry invariant). -/
theorem not_mem_toggle_of_mem (st : OrchestratorState) (s : String) (exclusive : Bool)
    (h : st.registry.Nodup) (hs : s ∈ st.registry) :
    s ∉ (Orchestrator.Toggle st s exclusive).registry := by
  unfold Orchestrator.Toggle Orchestrator.Stop
  simp only [hs, if_pos]
  exact h.not_mem_erase

/-- Toggle preserves the registry invariant. -/
theorem toggle_nodup (st : OrchestratorState) (s : String) (exclusive : Bool)
    (h : st.registry.Nodup) :
    (Orchestrator.Toggle st s exclusive).registry.Nodup := by
  unfold Orchestrator.Toggle Orchestrator.Play Orchestrator.Stop Orchestrator.StopAllExcept
  by_cases hs : s ∈ st.registry
  · simpa [hs] using h.erase s
  · have hfil : s ∉ st.registry.filter (fun x => x == s) := fun hmem =>
      hs (List.mem_of_mem_filter hmem)
    cases exclusive <;>
      simp [hs, hfil, List.nodup_append, List.disjoint_singleton, h, h.filter]

/-! ## Claim theorems -/

/-- Claim C1: with two sounds playing, activating the stop-all control of
the now-playing bar (wired as `onStopAll={handleStopSound}` in
`Index.tsx`) issues only the single request `POST /playback/stop/a` for
the first now-playing entry: it never issues `POST /playback/stop-all`,
and it issues no stop for the second sound, which therefore keeps
playing.  The claim that the control invokes the StopAll operation is
false on the code; `useStopAll` and `playbackApi.stopAll` exist but are
never used. -/
theorem stop_all_control_stops_only_first_sound :
    (nowPlayingBarOnStopAll [soundA, soundB] [⟨"a"⟩, ⟨"b"⟩]).requests =
      [playbackApi.stop "a"] ∧
    playbackApi.stopAll ∉ (nowPlayingBarOnStopAll [soundA, soundB] [⟨"a"⟩, ⟨"b"⟩]).requests ∧
    playbackApi.stop "b" ∉ (nowPlayingBarOnStopAll [soundA, soundB] [⟨"a"⟩, ⟨"b"⟩]).requests := by
  decide

/-- Claim C2: for every sound `s`, every starting registry state
satisfying the registry invariant (at most one entry per sound id) and
either collision policy, toggling `s` twice with no interleaved
operations returns `s` to its original playing/idle state. -/
theorem toggle_twice_restores_playing_state (st : OrchestratorState) (s : String)
    (exclusive : Bool) (h : st.registry.Nodup) :
    (s ∈ (Orchestrator.Toggle (Orchestrator.Toggle st s exclusive) s exclusive).registry ↔
      s ∈ st.registry) := by
  by_cases hs : s ∈ st.registry
  · have h1 := not_mem_toggle_of_mem st s exclusive h hs
    have h2 := mem_toggle_of_not_mem (Orchestrator.Toggle st s exclusive) s exclusive h1
    exact iff_of_true h2 hs
  · have h1 := mem_toggle_of_not_mem st s exclusive hs
    have h2 := not_mem_toggle_of_mem (Orchestrator.Toggle st s exclusive) s exclusive
      (toggle_nodup st s exclusive h) h1
    exact iff_of_false h2 hs

/-- Witness for C2 at the concrete state with sounds `a` and `b` playing. -/
theorem toggle_twice_restores_playing_state_witness :
    (["a", "b"] : List String).Nodup ∧
    ("a" ∈ (Orchestrator.Toggle (Orchestrator.Toggle ⟨["a", "b"]⟩ "a" false) "a" false).registry ↔
      "a" ∈ (OrchestratorState.mk ["a", "b"]).registry) :=
  ⟨by decide, toggle_twice_restores_playing_state ⟨["a", "b"]⟩ "a" false (by decide)⟩

/-- Claim C3: stopping a sound that is not playing is a benign no-op
reported as success with `stopped = false`, never an error, and leaves
the registry unchanged; and when nothing is playing the client's stop
handler issues no request and raises no toast. -/
theorem stop_idle_sound_is_noop (st : OrchestratorState) (s : String)
    (h : s ∉ st.registry) (sounds : List Sound) (np : List NowPlayingEntry)
    (hnp : playingSound sounds np = none) :
    Orchestrator.Stop st s = (st, ⟨false⟩) ∧
    handleStopSound sounds np = ⟨[], []⟩ := by
  constructor
  · simp [Orchestrator.Stop, h]
  · simp [handleStopSound, hnp]

/-- Witness for C3: stopping `y` when only `x` plays, and the stop
handler with an empty now-playing list. -/
theorem stop_idle_sound_is_noop_witness :
    Orchestrator.Stop ⟨["x"]⟩ "y" = (⟨["x"]⟩, ⟨false⟩) ∧
    handleStopSound [] [] = ⟨[], []⟩ :=
  stop_idle_sound_is_noop ⟨["x"]⟩ "y" (by decide) [] [] rfl

/-- Claim C4: `apiCall` throws if and only if the response is not ok; an
ok 204 response yields `null`, any other ok response yields the parsed
JSON body, and a non-ok response throws an `Error` whose message is the
body's `detail` when present and non-empty, or `HTTP error! status: N`
when the parsed error body has no detail. -/
theorem api_call_error_iff_not_ok (r : HttpResponse) :
    ((∃ msg, apiCall r = Except.error msg) ↔ r.ok = false) ∧
    (r.ok = true → r.status = 204 → apiCall r = Except.ok ApiValue.nullValue) ∧
    (r.ok = true → r.status ≠ 204 → apiCall r = Except.ok (ApiValue.jsonValue r.body)) ∧
    (r.ok = false → ∀ d, r.errorBody = some (some d) → d ≠ "" →
      apiCall r = Except.error d) ∧
    (r.ok = false → r.errorBody = some none →
      apiCall r = Except.error ("HTTP error! status: " ++ toString r.status)) := by
  obtain ⟨ok, status, statusText, errorBody, body⟩ := r
  cases ok
  · refine ⟨?_, ?_, ?_, ?_, ?_⟩
    · simp [apiCall]
    · intro hok
      exact absurd hok (by simp)
    · intro hok
      exact absurd hok (by simp)
    · intro _ d hd hne
      simp only at hd
      subst hd
      simp [apiCall, jsOrOptStringOpt, jsOrString, hne]
    · intro _ hd
      simp only at hd
      subst hd
      simp [apiCall, jsOrOptStringOpt, jsOrString]
  · refine ⟨?_, ?_, ?_, ?_, ?_⟩
    · by_cases h204 : status = 204 <;> simp [apiCall, h204]
    · intro _ h204
      simp only at h204
      subst h204
      simp [apiCall]
    · intro _ h204
      simp only at h204
      simp [apiCall, Nat.beq_eq_true_eq, h204]
    · intro hok
      exact absurd hok (by simp)
    · intro hok
      exact absurd hok (by simp)

/-- Witness for C4: a 204 success returns null; a 404 with a detail
message throws that message. -/
theorem api_call_error_iff_not_ok_witness :
    apiCall resp204 = Except.ok ApiValue.nullValue ∧
    apiCall resp404 = Except.error "Sound not found" :=
  ⟨(api_call_error_iff_not_ok resp204).2.1 rfl rfl,
   (api_call_error_iff_not_ok resp404).2.2.2.1 rfl "Sound not found" rfl (by decide)⟩

/-- Claim C5: `playbackApi.play` posts exactly `{restart: r}` to
`/playback/play/:id` with the caller's flag `r`; `usePlaySound` passes
`restart || false`, so an omitted flag becomes `false`; and the ordinary
UI play path of `handlePlaySound` issues exactly one non-restart play
request. -/
theorem play_request_carries_restart_flag (soundId : String) (r : Bool)
    (ro : Option Bool) (sounds : List Sound) (np : List NowPlayingEntry)
    (sound : Sound) (hsrc : sound.source ≠ "")
    (hnp : playingSound sounds np = none) :
    playbackApi.play soundId r =
      ⟨Method.POST, "/playback/play/" ++ soundId, RequestBody.playBody r⟩ ∧
    usePlaySound.mutationFn (soundId, none) = playbackApi.play soundId false ∧
    usePlaySound.mutationFn (soundId, ro) = playbackApi.play soundId (jsOrBool ro false) ∧
    (handlePlaySound sounds np sound).requests = [playbackApi.play sound.id false] := by
  refine ⟨rfl, rfl, rfl, ?_⟩
  simp [handlePlaySound, hsrc, hnp, usePlaySound, jsOrBool]

/-- Witness for C5 on the sound `a` with nothing playing. -/
theorem play_request_carries_restart_flag_witness :
    soundA.source ≠ "" ∧
    (handlePlaySound [] [] soundA).requests = [playbackApi.play "a" false] :=
  ⟨by decide,
   (play_request_carries_restart_flag "a" true none [] [] soundA (by decide) rfl).2.2.2⟩

/-- Claim C6: a nullable backend volume falls back to the default 80:
`transformSound` keeps a non-null stored volume and maps null to 80, and
`transformSettings` does the same for the default volume. -/
theorem nullable_volume_falls_back_to_default (b : BackendSound) (bs : BackendSettings) :
    (∀ v, b.volume = some v → (transformSound b).volume = v) ∧
    (b.volume = none → (transformSound b).volume = 80) ∧
    (∀ v, bs.default_volume = some v → (transformSettings bs).defaultVolume = v) ∧
    (bs.default_volume = none → (transformSettings bs).defaultVolume = 80) := by
  refine ⟨?_, ?_, ?_, ?_⟩
  · intro v hv
    simp [transformSound, hv]
  · intro hv
    simp [transformSound, hv]
  · intro v hv
    simp [transformSettings, hv]
  · intro hv
    simp [transformSettings, hv]

/-- Witness for C6: a stored volume of 55 is kept; a null default volume
becomes 80. -/
theorem nullable_volume_falls_back_to_default_witness :
    (transformSound backendSoundVol55).volume = 55 ∧
    (transformSettings backendSettingsNullVol).defaultVolume = 80 :=
  ⟨(nullable_volume_falls_back_to_default backendSoundVol55 backendSettingsNullVol).1 55 rfl,
   (nullable_volume_falls_back_to_default backendSoundVol55 backendSettingsNullVol).2.2.2 rfl⟩

/-- Claim C7: `useNowPlaying` polls the now-playing endpoint once per
second: its refetch interval is 1000 ms and its query fetches
`GET /playback/now-playing`. -/
theorem now_playing_polls_every_second :
    useNowPlaying.refetchInterval = some 1000 ∧
    useNowPlaying.queryFn = playbackApi.getNowPlaying ∧
    playbackApi.getNowPlaying = ⟨Method.GET, "/playback/now-playing", RequestBody.empty⟩ :=
  ⟨rfl, rfl, rfl⟩

/-- Claim C8: for every sound whose resolved source is empty — whatever
its source type — `handlePlaySound` issues no playback request and
raises exactly one error toast. -/
theorem empty_source_play_rejected_client_side (sounds : List Sound)
    (np : List NowPlayingEntry) (sound : Sound) (h : sound.source = "") :
    (handlePlaySound sounds np sound).requests = [] ∧
    ∃ msg, (handlePlaySound sounds np sound).toasts = [⟨ToastKind.error, msg⟩] := by
  rcases hst : sound.sourceType <;> simp [handlePlaySound, hst, h]

/-- Witness for C8: a local-file sound with no uploaded file. -/
theorem empty_source_play_rejected_client_side_witness :
    soundNoSource.source = "" ∧
    (handlePlaySound [] [] soundNoSource).requests = [] :=
  ⟨rfl, (empty_source_play_rejected_client_side [] [] soundNoSource rfl).1⟩

/-- Claim C9: the UI derives "currently playing" from the first
now-playing entry alone: `playingSound` is null on an empty list, does
not depend on later entries, is some sound only if that sound is in the
loaded list with the first entry's id, and `isPlaying` is true exactly
when the loaded list contains a sound with the first entry's id (so a
playing sound absent from the filtered list reads as not playing). -/
theorem playing_sound_derived_from_first_entry (sounds : List Sound)
    (e : NowPlayingEntry) (rest rest2 : List NowPlayingEntry) :
    playingSound sounds [] = none ∧
    playingSound sounds (e :: rest) = playingSound sounds (e :: rest2) ∧
    (isPlaying sounds (e :: rest) = true ↔ ∃ s ∈ sounds, s.id = e.sound_id) ∧
    (∀ s, playingSound sounds (e :: rest) = some s → s ∈ sounds ∧ s.id = e.sound_id) := by
  refine ⟨rfl, rfl, ?_, ?_⟩
  · simp [isPlaying, playingSound, List.find?_isSome]
  · intro s hs
    simp only [playingSound] at hs
    exact ⟨List.mem_of_find?_eq_some hs, by simpa using List.find?_some hs⟩

/-- Witness for C9: with `a` playing first, the displayed sound is
`soundA`, which is in the loaded list with the matching id. -/
theorem playing_sound_derived_from_first_entry_witness :
    soundA ∈ [soundA, soundB] ∧ soundA.id = "a" :=
  (playing_sound_derived_from_first_entry [soundA, soundB] ⟨"a"⟩ [] []).2.2.2
    soundA (by decide)

/-- Claim C10: the settings form's load effect collapses a stored
default volume of 0 to 80 (it uses `||`), so the form then displays 80
and a subsequent save submits 80. -/
theorem settings_load_collapses_zero_default_volume (s : Settings)
    (h : s.defaultVolume = 0) :
    (settingsLoadEffect s).defaultVolume = 80 ∧
    (handleSavePayload (settingsLoadEffect s)).defaultVolume = 80 := by
  simp [settingsLoadEffect, handleSavePayload, jsOrNat, h]

/-- Witness for C10 on a settings record with default volume 0. -/
theorem settings_load_collapses_zero_default_volume_witness :
    (settingsLoadEffect settingsZeroVol).defaultVolume = 80 ∧
    (handleSavePayload (settingsLoadEffect settingsZeroVol)).defaultVolume = 80 :=
  settings_load_collapses_zero_default_volume settingsZeroVol rfl

end Soundboard
